import Mathlib

/-!
Verification of the kill-orphan process-tree supervisor (src/cli/src/main.rs)
against its natural-language specification.

The development shallowly embeds the supervisor:

* `scanEntries` / `runPasses` / `resolve` embed the fixed-point descendant
  discovery inside the `kill_all_children` closure (main.rs lines 72-89).
* `Desc` is the specification-side relation "transitively parented, directly
  or indirectly, by the root PID", used as the comparison target for the
  Descendant Resolver claims.
* `killAllChildren` embeds the kill cascade (main.rs lines 91-103).
* `tick` embeds one iteration of the supervision loop (main.rs lines 106-139),
  with the mutable `killed_subprocess_instant : Option<Instant>` as `LoopState`
  and the per-tick observations of the outside world as `TickEnv`.
* `startup` embeds the startup sequence (main.rs lines 19-66).

PIDs are `Nat`; time is measured in milliseconds as `Nat`.
-/

namespace KillOrphan

/-- A process snapshot: the list of (pid, parent pid) entries produced by
iterating `sys.processes()`; `p.parent()` in sysinfo is an `Option`, hence the
`Option Nat` parent component. -/
abbrev Snapshot := List (Nat × Option Nat)

/-- One full scan over the snapshot entries, embedding the inner `for` loop of
`kill_all_children` (main.rs lines 76-85): an entry `(pid, parent_pid)` is
added to the accumulated `children` set when `parent_pid` is present and
`!children.contains(pid) && (parent_pid == sub_pid || children.contains(&parent_pid))`.
The `Bool` accumulator embeds the `did_find_new_descendant` flag. -/
def scanEntries (root : Nat) : Snapshot → List Nat → Bool → List Nat × Bool
  | [], ch, found => (ch, found)
  | (_, none) :: rest, ch, found => scanEntries root rest ch found
  | (pid, some parentPid) :: rest, ch, found =>
    if pid ∉ ch ∧ (parentPid = root ∨ parentPid ∈ ch) then
      scanEntries root rest (pid :: ch) true
    else
      scanEntries root rest ch found

/-- The outer `loop` of the fixed-point expansion (main.rs lines 74-89): run
full passes until a pass adds nothing new.  The Rust loop is unbounded; the
embedding carries explicit fuel, and `runPasses_fix` below proves that
`snapshot length + 1` passes always reach the fixed point, so the fuel is
never the reason the iteration stops. -/
def runPasses (root : Nat) (snap : Snapshot) : Nat → List Nat → List Nat
  | 0, ch => ch
  | fuel + 1, ch =>
    if (scanEntries root snap ch false).2 then
      runPasses root snap fuel (scanEntries root snap ch false).1
    else
      (scanEntries root snap ch false).1

/-- The Descendant Resolver: the `children` set computed by
`kill_all_children` before any kill is issued (main.rs lines 73-89). -/
def resolve (root : Nat) (snap : Snapshot) : List Nat :=
  runPasses root snap (snap.length + 1) []

/-- Modelled from the spec's words, as the comparison target for the resolver:
a PID is a descendant of `root` in a snapshot when it is transitively
parented, directly or indirectly, by `root`. -/
inductive Desc (snap : Snapshot) (root : Nat) : Nat → Prop where
  | direct (pid : Nat) (h : (pid, some root) ∈ snap) : Desc snap root pid
  | step (p pid : Nat) (hp : Desc snap root p) (h : (pid, some p) ∈ snap) :
      Desc snap root pid

/-- Observable actions of a supervision-loop tick that the claims reason
about: the kill request to the root child handle (`subprocess.kill()`,
main.rs line 92), a kill attempt against one descendant PID with the result
the code discards (`let _ = process.kill()`, line 97), and the non-blocking
poll of the child's exit status (`subprocess.try_wait()`, line 133). -/
inductive Event where
  | killRoot (pid : Nat)
  | killDescendant (pid : Nat) (ok : Bool)
  | checkChildExit
  deriving Repr, DecidableEq

/-- The outside world as one invocation of `kill_all_children` observes it:
the process snapshot obtained by `sys.refresh_processes_specifics` (line 71),
whether `subprocess.kill()` succeeds, and the result each per-descendant
`process.kill()` would report. -/
structure KillEnv where
  snap : Snapshot
  rootKillOk : Bool
  descKillOk : Nat → Bool

/-- The `kill_all_children` closure (main.rs lines 68-104): resolve the
descendant set from a fresh snapshot, kill the root child via its handle
(the `?` propagates a root-kill failure, so `none` is returned and no
descendant is touched), then attempt to kill every resolved PID that is
still found by `sys.process(pid)`, discarding each per-descendant result;
finally record the kill instant. Returns the new value of
`killed_subprocess_instant` (or `none` for the propagated error) together
with the trace of kill requests issued. -/
def killAllChildren (subPid : Nat) (k : KillEnv) (now : Nat) :
    Option Nat × List Event :=
  if k.rootKillOk then
    (some now,
      Event.killRoot subPid ::
        ((resolve subPid k.snap).filter
            (fun p => decide (p ∈ k.snap.map Prod.fst))).map
          (fun p => Event.killDescendant p (k.descKillOk p)))
  else
    (none, [Event.killRoot subPid])

/-- The supervision-loop state: the mutable
`killed_subprocess_instant : Option<Instant>` of main.rs line 57.  `running`
is `None`; `terminating t` is `Some(instant)` with `t` the instant (in
milliseconds) the kill cascade recorded. -/
inductive LoopState where
  | running
  | terminating (t : Nat)
  deriving Repr, DecidableEq

/-- How one tick of the supervision loop ends: continue looping in a state,
exit(1) after the grace period (line 111), exit with the child-derived code
(line 135), or abort the loop because the root kill failed and `?`
propagated the error out of `main` (lines 120 and 127). -/
inductive TickOutcome where
  | next (s : LoopState)
  | exitTimeout
  | exitCode (c : Nat)
  | fatalKillError
  deriving Repr, DecidableEq

/-- The outside world as one tick of the main loop observes it: the child
PID, the signal latch value (`catched_termination_signal`), the parent
liveness check (`sys.refresh_process(my_parent_pid)`), the environments of
the up-to-two `kill_all_children` invocations a tick can make, the result of
`subprocess.try_wait()` (`some c` embeds `Ok(Some(status))` with
`c = status.code()`; `none` embeds both `Ok(None)` and `Err`), and the
current time in milliseconds. -/
structure TickEnv where
  subPid : Nat
  signal : Bool
  parentAlive : Bool
  kill1 : KillEnv
  kill2 : KillEnv
  childStatus : Option (Option Nat)
  now : Nat

/-- The grace-period guard `instant.elapsed().as_secs() > 5` of main.rs
line 109, with times in milliseconds: `as_secs` truncates to whole seconds,
which the division by 1000 embeds. -/
def timeoutFired (t now : Nat) : Bool :=
  decide (5 < (now - t) / 1000)

/-- Tail of every non-exiting tick (main.rs lines 132-136): poll the child
exit status and exit with `status.code().unwrap_or(1)` when the poll
reports an exit, otherwise keep looping in state `s`. -/
def afterChecks (s : LoopState) (env : TickEnv) (tr : List Event) :
    TickOutcome × List Event :=
  match env.childStatus with
  | some c => (TickOutcome.exitCode (c.getD 1), tr ++ [Event.checkChildExit])
  | none => (TickOutcome.next s, tr ++ [Event.checkChildExit])

/-- The parent-liveness part of a `running` tick (main.rs lines 123-128):
when `sys.refresh_process(my_parent_pid)` reports the parent gone, invoke
`kill_all_children` (with `?` on its result), then fall through to the
child-status poll.  This check runs even if the signal check earlier in the
same tick already ran the cascade, because both `if`s sit in the same
`None` match arm. -/
def afterParent (s : LoopState) (env : TickEnv) (tr : List Event) :
    TickOutcome × List Event :=
  if env.parentAlive then
    afterChecks s env tr
  else
    match (killAllChildren env.subPid env.kill2 env.now).1 with
    | none =>
      (TickOutcome.fatalKillError,
        tr ++ (killAllChildren env.subPid env.kill2 env.now).2)
    | some t2 =>
      afterChecks (LoopState.terminating t2) env
        (tr ++ (killAllChildren env.subPid env.kill2 env.now).2)

/-- One iteration of the supervision loop (main.rs lines 106-139).  With
`killed_subprocess_instant = Some(t)` only the grace-period guard and the
child poll run; with `None` the signal latch is consulted (cascade plus `?`
on failure), then the parent liveness check, then the child poll. -/
def tick (st : LoopState) (env : TickEnv) : TickOutcome × List Event :=
  match st with
  | LoopState.terminating t =>
    if timeoutFired t env.now then (TickOutcome.exitTimeout, [])
    else afterChecks (LoopState.terminating t) env []
  | LoopState.running =>
    if env.signal then
      match (killAllChildren env.subPid env.kill1 env.now).1 with
      | none =>
        (TickOutcome.fatalKillError,
          (killAllChildren env.subPid env.kill1 env.now).2)
      | some t1 =>
        afterParent (LoopState.terminating t1) env
          (killAllChildren env.subPid env.kill1 env.now).2
    else
      afterParent LoopState.running env []

/-- Process exit code produced by each way a tick can end: `exit(1)` on the
grace-period timeout (line 111), `exit(status.code().unwrap_or(1))` on a
successful poll (line 135), and code 1 when `main` returns the propagated
root-kill error (Rust's `Termination` for `Result::Err` reports failure,
exit code 1). `next` keeps the process running. -/
def outcomeExitCode : TickOutcome → Option Nat
  | TickOutcome.next _ => none
  | TickOutcome.exitTimeout => some 1
  | TickOutcome.exitCode c => some c
  | TickOutcome.fatalKillError => some 1

/-- Recognises the root-handle kill request; counting these events counts
kill cascades, since each `kill_all_children` invocation issues exactly one. -/
def isKillRoot : Event → Bool
  | Event.killRoot _ => true
  | _ => false

/-- Recognises any kill request (root handle or descendant PID). -/
def isKill : Event → Bool
  | Event.checkChildExit => false
  | _ => true

/-- The startup sequence as one invocation observes it (main.rs lines
19-66): the argv length (program name included), whether each of the three
`signal_hook::flag::register` calls succeeds, whether `cmd.spawn()`
succeeds, and whether the `sys.process(my_pid)` and `me.parent()` lookups
find a value. -/
structure StartupEnv where
  argc : Nat
  registerTermOk : Bool
  registerIntOk : Bool
  registerQuitOk : Bool
  spawnOk : Bool
  selfFound : Bool
  parentFound : Bool
  deriving Repr, DecidableEq

/-- How startup ends: the usage `exit(1)` (line 23), `main` returning a
propagated error via `?` (register or spawn failure, exit code 1), a panic
from `.expect` on the self/parent lookups (lines 63-66, Rust panic exit
code 101), or reaching the supervision loop. -/
inductive StartupResult where
  | usageExit
  | errExit
  | panicExit
  | started
  deriving Repr, DecidableEq

/-- Observable startup actions the claims mention: the usage message printed
to stderr (line 22) and the successful spawn of the child (line 53). -/
inductive StartupEvent where
  | usageMessage
  | spawnChild
  deriving Repr, DecidableEq

/-- The startup sequence of `main` (main.rs lines 19-66), in source order:
usage check, the three signal-handler registrations (each with `?`), the
spawn (with `?`), then the self-process and parent-PID lookups (each with
`.expect`, i.e. a panic on failure). -/
def startup (env : StartupEnv) : StartupResult × List StartupEvent :=
  if env.argc < 2 then
    (StartupResult.usageExit, [StartupEvent.usageMessage])
  else if !env.registerTermOk then (StartupResult.errExit, [])
  else if !env.registerIntOk then (StartupResult.errExit, [])
  else if !env.registerQuitOk then (StartupResult.errExit, [])
  else if !env.spawnOk then (StartupResult.errExit, [])
  else if !env.selfFound then (StartupResult.panicExit, [StartupEvent.spawnChild])
  else if !env.parentFound then (StartupResult.panicExit, [StartupEvent.spawnChild])
  else (StartupResult.started, [StartupEvent.spawnChild])

/-- Process exit code of each startup result: the explicit `exit(1)` for
usage, exit code 1 when `main` returns `Err` (Rust `Termination` failure),
and 101 for a panic (the Rust runtime's panic exit code). `started` means
the process keeps running. -/
def startupExitCode : StartupResult → Option Nat
  | StartupResult.usageExit => some 1
  | StartupResult.errExit => some 1
  | StartupResult.panicExit => some 101
  | StartupResult.started => none

/-- A kill environment whose snapshot holds one child of PID 10 and in which
every kill request succeeds. -/
def kenvOk : KillEnv := ⟨[(11, some 10)], true, fun _ => true⟩

/-- A kill environment with a two-generation tree below PID 20 and in which
every kill request succeeds. -/
def kenvTree : KillEnv := ⟨[(21, some 20), (22, some 21)], true, fun _ => true⟩

/-- A kill environment in which the root-handle kill request fails. -/
def kenvFail : KillEnv := ⟨[(11, some 10)], false, fun _ => true⟩

/-- A running-state tick on which the signal latch is tripped and the parent
liveness check simultaneously reports the parent gone. -/
def envBoth : TickEnv := ⟨10, true, false, kenvOk, kenvOk, none, 0⟩

/-- A second tick with both termination triggers observed at once, over the
two-generation snapshot. -/
def envTreeBoth : TickEnv := ⟨20, true, false, kenvTree, kenvTree, none, 0⟩

/-- A terminating-state tick observed 5100 ms (5 s plus one 100 ms polling
interval) after a cascade that started at instant 0, with the child still
running. -/
def envLate : TickEnv := ⟨10, false, true, kenvOk, kenvOk, none, 5100⟩

/-- A terminating-state tick observed 6000 ms after a cascade that started
at instant 0, with the child still running. -/
def envSix : TickEnv := ⟨10, false, true, kenvOk, kenvOk, none, 6000⟩

/-- A running-state tick on which only the signal latch is tripped. -/
def envSig : TickEnv := ⟨10, true, true, kenvOk, kenvOk, none, 0⟩

/-- A running-state tick on which the child poll reports exit code 7. -/
def envExit7 : TickEnv := ⟨10, false, true, kenvOk, kenvOk, some (some 7), 0⟩

/-- A running-state tick on which the signal latch is tripped and the
root-handle kill request fails. -/
def envFatal : TickEnv := ⟨10, true, true, kenvFail, kenvOk, none, 0⟩

/-- A startup invoked with no extra argument (argv holds only the program
name) and an otherwise healthy environment. -/
def envUsage : StartupEnv := ⟨1, true, true, true, true, true, true⟩

/-- A startup with a command argument and a healthy environment except that
the parent-PID lookup finds nothing. -/
def envNoParent : StartupEnv := ⟨2, true, true, true, true, true, false⟩

/-- A startup with a command argument whose spawn fails. -/
def envNoSpawn : StartupEnv := ⟨2, true, true, true, false, true, true⟩

end KillOrphan

namespace KillOrphan

theorem scanEntries_mem (root : Nat) (l : Snapshot) :
    ∀ ch found x, x ∈ ch → x ∈ (scanEntries root l ch found).1 := by
  induction l with
  | nil => intro ch found x hx; simpa [scanEntries] using hx
  | cons e rest ih =>
    intro ch found x hx
    obtain ⟨pid, pp⟩ := e
    cases pp with
    | none => simpa [scanEntries] using ih ch found x hx
    | some q =>
      by_cases hc : pid ∉ ch ∧ (q = root ∨ q ∈ ch)
      · simpa [scanEntries, if_pos hc] using
          ih (pid :: ch) true x (List.mem_cons_of_mem _ hx)
      · simpa [scanEntries, if_neg hc] using ih ch found x hx

theorem scanEntries_mem_or (root : Nat) (l : Snapshot) :
    ∀ ch found x, x ∈ (scanEntries root l ch found).1 →
      x ∈ ch ∨ x ∈ l.map Prod.fst := by
  induction l with
  | nil => intro ch found x hx; exact Or.inl (by simpa [scanEntries] using hx)
  | cons e rest ih =>
    intro ch found x hx
    obtain ⟨pid, pp⟩ := e
    cases pp with
    | none =>
      rcases ih ch found x (by simpa [scanEntries] using hx) with h | h
      · exact Or.inl h
      · exact Or.inr (by simp [h])
    | some q =>
      by_cases hc : pid ∉ ch ∧ (q = root ∨ q ∈ ch)
      · rcases ih (pid :: ch) true x
            (by simpa [scanEntries, if_pos hc] using hx) with h | h
        · rcases List.mem_cons.mp h with h1 | h1
          · exact Or.inr (by simp [h1])
          · exact Or.inl h1
        · exact Or.inr (by simp [h])
      · rcases ih ch found x (by simpa [scanEntries, if_neg hc] using hx) with h | h
        · exact Or.inl h
        · exact Or.inr (by simp [h])

theorem scanEntries_length_le (root : Nat) (l : Snapshot) :
    ∀ ch found, ch.length ≤ (scanEntries root l ch found).1.length := by
  induction l with
  | nil => intro ch found; simp [scanEntries]
  | cons e rest ih =>
    intro ch found
    obtain ⟨pid, pp⟩ := e
    cases pp with
    | none => simpa [scanEntries] using ih ch found
    | some q =>
      by_cases hc : pid ∉ ch ∧ (q = root ∨ q ∈ ch)
      · have h := ih (pid :: ch) true
        simp only [scanEntries, if_pos hc]
        exact le_trans (by simp) h
      · simpa [scanEntries, if_neg hc] using ih ch found

theorem scanEntries_flag_mono (root : Nat) (l : Snapshot) :
    ∀ ch, (scanEntries root l ch true).2 = true := by
  induction l with
  | nil => intro ch; simp [scanEntries]
  | cons e rest ih =>
    intro ch
    obtain ⟨pid, pp⟩ := e
    cases pp with
    | none => simpa [scanEntries] using ih ch
    | some q =>
      by_cases hc : pid ∉ ch ∧ (q = root ∨ q ∈ ch)
      · simpa [scanEntries, if_pos hc] using ih (pid :: ch)
      · simpa [scanEntries, if_neg hc] using ih ch

theorem scanEntries_false_eq (root : Nat) (l : Snapshot) :
    ∀ ch, (scanEntries root l ch false).2 = false →
      (scanEntries root l ch false).1 = ch := by
  induction l with
  | nil => intro ch _; simp [scanEntries]
  | cons e rest ih =>
    intro ch hfl
    obtain ⟨pid, pp⟩ := e
    cases pp with
    | none =>
      simp only [scanEntries] at hfl ⊢
      exact ih ch hfl
    | some q =>
      by_cases hc : pid ∉ ch ∧ (q = root ∨ q ∈ ch)
      · exfalso
        have := scanEntries_flag_mono root rest (pid :: ch)
        simp only [scanEntries, if_pos hc] at hfl
        rw [hfl] at this
        exact Bool.false_ne_true this
      · simp only [scanEntries, if_neg hc] at hfl ⊢
        exact ih ch hfl

theorem scanEntries_false_closed (root : Nat) (l : Snapshot) :
    ∀ ch, (scanEntries root l ch false).2 = false →
      ∀ pid q, (pid, some q) ∈ l → q = root ∨ q ∈ ch → pid ∈ ch := by
  induction l with
  | nil => intro ch _ pid q hmem; simp at hmem
  | cons e rest ih =>
    intro ch hfl pid q hmem hq
    obtain ⟨pid2, pp⟩ := e
    cases pp with
    | none =>
      simp only [scanEntries] at hfl
      rcases List.mem_cons.mp hmem with h | h
      · exact absurd h (by simp)
      · exact ih ch hfl pid q h hq
    | some q2 =>
      by_cases hc : pid2 ∉ ch ∧ (q2 = root ∨ q2 ∈ ch)
      · exfalso
        have := scanEntries_flag_mono root rest (pid2 :: ch)
        simp only [scanEntries, if_pos hc] at hfl
        rw [hfl] at this
        exact Bool.false_ne_true this
      · simp only [scanEntries, if_neg hc] at hfl
        rcases List.mem_cons.mp hmem with h | h
        · have hpid : pid = pid2 ∧ (some q : Option Nat) = some q2 := by
            constructor
            · exact congrArg Prod.fst h
            · exact congrArg Prod.snd h
          obtain ⟨h1, h2⟩ := hpid
          have hqq : q = q2 := by injection h2
          subst h1; subst hqq
          by_contra hnot
          exact hc ⟨hnot, hq⟩
        · exact ih ch hfl pid q h hq

theorem scanEntries_strict (root : Nat) (l : Snapshot) :
    ∀ ch, (scanEntries root l ch false).2 = true →
      ch.length < (scanEntries root l ch false).1.length := by
  induction l with
  | nil => intro ch h; simp [scanEntries] at h
  | cons e rest ih =>
    intro ch hfl
    obtain ⟨pid, pp⟩ := e
    cases pp with
    | none =>
      simp only [scanEntries] at hfl ⊢
      exact ih ch hfl
    | some q =>
      by_cases hc : pid ∉ ch ∧ (q = root ∨ q ∈ ch)
      · simp only [scanEntries, if_pos hc]
        have h := scanEntries_length_le root rest (pid :: ch) true
        calc ch.length < (pid :: ch).length := by simp
          _ ≤ _ := h
      · simp only [scanEntries, if_neg hc] at hfl ⊢
        exact ih ch hfl

theorem scanEntries_nodup (root : Nat) (l : Snapshot) :
    ∀ ch found, ch.Nodup → (scanEntries root l ch found).1.Nodup := by
  induction l with
  | nil => intro ch found h; simpa [scanEntries] using h
  | cons e rest ih =>
    intro ch found h
    obtain ⟨pid, pp⟩ := e
    cases pp with
    | none => simpa [scanEntries] using ih ch found h
    | some q =>
      by_cases hc : pid ∉ ch ∧ (q = root ∨ q ∈ ch)
      · simp only [scanEntries, if_pos hc]
        exact ih (pid :: ch) true (List.nodup_cons.mpr ⟨hc.1, h⟩)
      · simpa [scanEntries, if_neg hc] using ih ch found h

theorem scanEntries_sound (root : Nat) (snap : Snapshot) (l : Snapshot) :
    ∀ ch found, (∀ e ∈ l, e ∈ snap) → (∀ x ∈ ch, Desc snap root x) →
      ∀ x ∈ (scanEntries root l ch found).1, Desc snap root x := by
  induction l with
  | nil => intro ch found _ hch x hx; exact hch x (by simpa [scanEntries] using hx)
  | cons e rest ih =>
    intro ch found hsub hch x hx
    obtain ⟨pid, pp⟩ := e
    cases pp with
    | none =>
      exact ih ch found (fun e he => hsub e (List.mem_cons_of_mem _ he)) hch x
        (by simpa [scanEntries] using hx)
    | some q =>
      by_cases hc : pid ∉ ch ∧ (q = root ∨ q ∈ ch)
      · have hpid : Desc snap root pid := by
          rcases hc.2 with hq | hq
          · subst hq
            exact Desc.direct pid (hsub _ (List.mem_cons_self _ _))
          · exact Desc.step q pid (hch q hq) (hsub _ (List.mem_cons_self _ _))
        have hch2 : ∀ y ∈ pid :: ch, Desc snap root y := by
          intro y hy
          rcases List.mem_cons.mp hy with h | h
          · subst h; exact hpid
          · exact hch y h
        exact ih (pid :: ch) true (fun e he => hsub e (List.mem_cons_of_mem _ he))
          hch2 x (by simpa [scanEntries, if_pos hc] using hx)
      · exact ih ch found (fun e he => hsub e (List.mem_cons_of_mem _ he)) hch x
          (by simpa [scanEntries, if_neg hc] using hx)

theorem runPasses_sound (root : Nat) (snap : Snapshot) :
    ∀ fuel ch, (∀ x ∈ ch, Desc snap root x) →
      ∀ x ∈ runPasses root snap fuel ch, Desc snap root x := by
  intro fuel
  induction fuel with
  | zero => intro ch hch x hx; exact hch x (by simpa [runPasses] using hx)
  | succ fuel ih =>
    intro ch hch x hx
    have hch2 : ∀ y ∈ (scanEntries root snap ch false).1, Desc snap root y :=
      scanEntries_sound root snap snap ch false (fun e he => he) hch
    by_cases hfl : (scanEntries root snap ch false).2 = true
    · exact ih _ hch2 x (by simpa [runPasses, hfl] using hx)
    · exact hch2 x (by simpa [runPasses, hfl] using hx)

theorem runPasses_subset (root : Nat) (snap : Snapshot) :
    ∀ fuel ch, (∀ x ∈ ch, x ∈ snap.map Prod.fst) →
      ∀ x ∈ runPasses root snap fuel ch, x ∈ snap.map Prod.fst := by
  intro fuel
  induction fuel with
  | zero => intro ch hch x hx; exact hch x (by simpa [runPasses] using hx)
  | succ fuel ih =>
    intro ch hch x hx
    have hch2 : ∀ y ∈ (scanEntries root snap ch false).1, y ∈ snap.map Prod.fst := by
      intro y hy
      rcases scanEntries_mem_or root snap ch false y hy with h | h
      · exact hch y h
      · exact h
    by_cases hfl : (scanEntries root snap ch false).2 = true
    · exact ih _ hch2 x (by simpa [runPasses, hfl] using hx)
    · exact hch2 x (by simpa [runPasses, hfl] using hx)

theorem resolve_subset (root : Nat) (snap : Snapshot) :
    ∀ x ∈ resolve root snap, x ∈ snap.map Prod.fst :=
  runPasses_subset root snap (snap.length + 1) [] (by simp)

theorem runPasses_fix (root : Nat) (snap : Snapshot) :
    ∀ fuel ch, ch.Nodup → (∀ x ∈ ch, x ∈ snap.map Prod.fst) →
      (snap.map Prod.fst).toFinset.card + 1 ≤ fuel + ch.length →
      (scanEntries root snap (runPasses root snap fuel ch) false).2 = false
      ∧ ∀ k, runPasses root snap (fuel + k) ch = runPasses root snap fuel ch := by
  intro fuel
  induction fuel with
  | zero =>
    intro ch hnd hsub hcard
    exfalso
    have h1 : ch.toFinset.card = ch.length := List.toFinset_card_of_nodup hnd
    have h2 : ch.toFinset ⊆ (snap.map Prod.fst).toFinset := by
      intro a ha
      exact List.mem_toFinset.mpr (hsub a (List.mem_toFinset.mp ha))
    have h3 := Finset.card_le_card h2
    omega
  | succ fuel ih =>
    intro ch hnd hsub hcard
    by_cases hfl : (scanEntries root snap ch false).2 = true
    · have hnd2 := scanEntries_nodup root snap ch false hnd
      have hsub2 : ∀ x ∈ (scanEntries root snap ch false).1, x ∈ snap.map Prod.fst := by
        intro y hy
        rcases scanEntries_mem_or root snap ch false y hy with h | h
        · exact hsub y h
        · exact h
      have hlen := scanEntries_strict root snap ch hfl
      have hrec := ih (scanEntries root snap ch false).1 hnd2 hsub2 (by omega)
      constructor
      · simpa [runPasses, hfl] using hrec.1
      · intro k
        have e1 : fuel + 1 + k = (fuel + k) + 1 := by omega
        rw [e1]
        simp only [runPasses, hfl, if_true]
        exact hrec.2 k
    · have hfalse : (scanEntries root snap ch false).2 = false := by
        simpa using hfl
      have heq := scanEntries_false_eq root snap ch hfalse
      constructor
      · simp only [runPasses, hfl, if_false, heq]
        exact hfalse
      · intro k
        have e1 : fuel + 1 + k = (fuel + k) + 1 := by omega
        rw [e1]
        simp only [runPasses, hfalse]
        simp

theorem Desc_mem_of_closed (snap : Snapshot) (root : Nat) (ch : List Nat)
    (hclosed : ∀ pid q, (pid, some q) ∈ snap → q = root ∨ q ∈ ch → pid ∈ ch) :
    ∀ x, Desc snap root x → x ∈ ch := by
  intro x hx
  induction hx with
  | direct pid h => exact hclosed pid root h (Or.inl rfl)
  | step p pid _ h ih => exact hclosed pid p h (Or.inr ih)

theorem resolve_fix (root : Nat) (snap : Snapshot) :
    (scanEntries root snap (resolve root snap) false).2 = false
    ∧ ∀ k, runPasses root snap (snap.length + 1 + k) [] = resolve root snap := by
  have hcard : (snap.map Prod.fst).toFinset.card + 1 ≤ (snap.length + 1) + ([] : List Nat).length := by
    have h := List.toFinset_card_le (snap.map Prod.fst)
    simp only [List.length_map] at h
    simp
    omega
  exact runPasses_fix root snap (snap.length + 1) [] (by simp) (by simp) hcard

theorem resolve_mem_iff (root : Nat) (snap : Snapshot) (pid : Nat) :
    pid ∈ resolve root snap ↔ Desc snap root pid := by
  constructor
  · intro h
    exact runPasses_sound root snap (snap.length + 1) [] (by simp) pid h
  · intro h
    have hfix := (resolve_fix root snap).1
    have hclosed := scanEntries_false_closed root snap (resolve root snap) hfix
    exact Desc_mem_of_closed snap root _ hclosed pid h

theorem Desc_mono (snap snap2 : Snapshot) (root : Nat)
    (hsub : ∀ e, e ∈ snap → e ∈ snap2) :
    ∀ x, Desc snap root x → Desc snap2 root x := by
  intro x hx
  induction hx with
  | direct pid h => exact Desc.direct pid (hsub _ h)
  | step p pid _ h ih => exact Desc.step p pid ih (hsub _ h)

end KillOrphan

namespace KillOrphan

theorem killAllChildren_fst (subPid : Nat) (k : KillEnv) (now : Nat) :
    (killAllChildren subPid k now).1 = if k.rootKillOk then some now else none := by
  by_cases h : k.rootKillOk <;> simp [killAllChildren, h]

theorem killAllChildren_filter (subPid : Nat) (snap : Snapshot) :
    (resolve subPid snap).filter (fun p => decide (p ∈ snap.map Prod.fst))
      = resolve subPid snap := by
  rw [List.filter_eq_self]
  intro a ha
  exact decide_eq_true (resolve_subset subPid snap a ha)

theorem killAllChildren_snd_ok (subPid : Nat) (k : KillEnv) (now : Nat)
    (h : k.rootKillOk = true) :
    (killAllChildren subPid k now).2 =
      Event.killRoot subPid ::
        (resolve subPid k.snap).map (fun p => Event.killDescendant p (k.descKillOk p)) := by
  simp [killAllChildren, h, killAllChildren_filter]

theorem killAllChildren_snd_fail (subPid : Nat) (k : KillEnv) (now : Nat)
    (h : k.rootKillOk = false) :
    (killAllChildren subPid k now).2 = [Event.killRoot subPid] := by
  simp [killAllChildren, h]

theorem countP_killDescendant_map (l : List Nat) (f : Nat → Bool) :
    (l.map (fun p => Event.killDescendant p (f p))).countP isKillRoot = 0 := by
  induction l with
  | nil => simp
  | cons a l ih => simp [List.countP_cons, ih, isKillRoot]

theorem killAllChildren_countRoot (subPid : Nat) (k : KillEnv) (now : Nat) :
    (killAllChildren subPid k now).2.countP isKillRoot = 1 := by
  by_cases h : k.rootKillOk
  · rw [killAllChildren_snd_ok subPid k now h]
    simp [List.countP_cons, countP_killDescendant_map, isKillRoot]
  · rw [killAllChildren_snd_fail subPid k now (by simpa using h)]
    simp [List.countP_cons, isKillRoot]

theorem killAllChildren_allKill (subPid : Nat) (k : KillEnv) (now : Nat) :
    ∀ e ∈ (killAllChildren subPid k now).2, isKill e = true := by
  by_cases h : k.rootKillOk
  · rw [killAllChildren_snd_ok subPid k now h]
    intro e he
    rcases List.mem_cons.mp he with h1 | h1
    · subst h1; rfl
    · obtain ⟨p, _, rfl⟩ := List.mem_map.mp h1
      rfl
  · rw [killAllChildren_snd_fail subPid k now (by simpa using h)]
    intro e he
    have : e = Event.killRoot subPid := by simpa using he
    subst this; rfl

theorem afterChecks_snd (s : LoopState) (env : TickEnv) (tr : List Event) :
    (afterChecks s env tr).2 = tr ++ [Event.checkChildExit] := by
  cases h : env.childStatus <;> simp [afterChecks, h]

theorem afterChecks_countRoot (s : LoopState) (env : TickEnv) (tr : List Event) :
    (afterChecks s env tr).2.countP isKillRoot = tr.countP isKillRoot := by
  rw [afterChecks_snd]
  simp [List.countP_append, List.countP_cons, isKillRoot]

theorem afterChecks_fst_ne_timeout (s : LoopState) (env : TickEnv) (tr : List Event) :
    (afterChecks s env tr).1 ≠ TickOutcome.exitTimeout := by
  cases h : env.childStatus <;> simp [afterChecks, h]

theorem afterChecks_fst_next (s : LoopState) (env : TickEnv) (tr : List Event)
    (h : env.childStatus = none) :
    (afterChecks s env tr).1 = TickOutcome.next s := by
  simp [afterChecks, h]

theorem afterChecks_fst_exit (s : LoopState) (env : TickEnv) (tr : List Event)
    (c : Option Nat) (h : env.childStatus = some c) :
    (afterChecks s env tr).1 = TickOutcome.exitCode (c.getD 1) := by
  simp [afterChecks, h]

theorem afterParent_countRoot (s : LoopState) (env : TickEnv) (tr : List Event)
    (hok : env.kill2.rootKillOk = true) :
    (afterParent s env tr).2.countP isKillRoot
      = tr.countP isKillRoot + (if env.parentAlive then 0 else 1) := by
  cases hp : env.parentAlive with
  | true => simp [afterParent, hp, afterChecks_countRoot]
  | false =>
    simp [afterParent, hp, killAllChildren_fst, hok, afterChecks_countRoot,
      List.countP_append, killAllChildren_countRoot]

theorem tick_running_countRoot (env : TickEnv)
    (h1 : env.kill1.rootKillOk = true) (h2 : env.kill2.rootKillOk = true) :
    (tick LoopState.running env).2.countP isKillRoot
      = (if env.signal then 1 else 0) + (if env.parentAlive then 0 else 1) := by
  cases hs : env.signal with
  | true =>
    cases hp : env.parentAlive with
    | true =>
      simp [tick, hs, hp, killAllChildren_fst, h1, afterParent,
        afterChecks_countRoot, killAllChildren_countRoot]
    | false =>
      simp [tick, hs, hp, killAllChildren_fst, h1, h2, afterParent,
        afterChecks_countRoot, List.countP_append, killAllChildren_countRoot]
  | false =>
    cases hp : env.parentAlive with
    | true => simp [tick, hs, hp, afterParent, afterChecks_countRoot]
    | false =>
      simp [tick, hs, hp, killAllChildren_fst, h2, afterParent,
        afterChecks_countRoot, List.countP_append, killAllChildren_countRoot]

theorem tick_terminating_noKill (t : Nat) (env : TickEnv) :
    (tick (LoopState.terminating t) env).2.countP isKillRoot = 0 := by
  cases hf : timeoutFired t env.now with
  | true => simp [tick, hf]
  | false => simp [tick, hf, afterChecks_countRoot]

theorem tick_terminating_next (t : Nat) (env : TickEnv) :
    ∀ s, (tick (LoopState.terminating t) env).1 = TickOutcome.next s →
      s = LoopState.terminating t := by
  intro s hs
  cases hf : timeoutFired t env.now with
  | true => simp [tick, hf] at hs
  | false =>
    cases h : env.childStatus with
    | none =>
      simp [tick, hf, afterChecks, h] at hs
      exact hs.symm
    | some c => simp [tick, hf, afterChecks, h] at hs

end KillOrphan

namespace KillOrphan

theorem tick_exitTimeout_iff (t : Nat) (env : TickEnv) :
    (tick (LoopState.terminating t) env).1 = TickOutcome.exitTimeout
      ↔ 6000 ≤ env.now - t := by
  cases hf : timeoutFired t env.now with
  | true =>
    have h2 : 5 < (env.now - t) / 1000 := by simpa [timeoutFired] using hf
    simp only [tick, hf, if_true]
    constructor
    · intro _; omega
    · intro _; trivial
  | false =>
    have h2 : ¬ 5 < (env.now - t) / 1000 := by simpa [timeoutFired] using hf
    cases h : env.childStatus with
    | none =>
      simp [tick, hf, afterChecks, h]
      omega
    | some c =>
      simp [tick, hf, afterChecks, h]
      omega

theorem afterParent_split (s : LoopState) (env : TickEnv) (tr : List Event)
    (htr : ∀ e ∈ tr, isKill e = true) :
    ∃ ks tl, (afterParent s env tr).2 = ks ++ tl
      ∧ (∀ e ∈ ks, isKill e = true) ∧ ∀ e ∈ tl, e = Event.checkChildExit := by
  cases hp : env.parentAlive with
  | true =>
    refine ⟨tr, [Event.checkChildExit], ?_, htr, ?_⟩
    · simp [afterParent, hp, afterChecks_snd]
    · intro e he; simpa using he
  | false =>
    cases hk : (killAllChildren env.subPid env.kill2 env.now).1 with
    | none =>
      refine ⟨tr ++ (killAllChildren env.subPid env.kill2 env.now).2, [],
        ?_, ?_, by simp⟩
      · simp [afterParent, hp, hk]
      · intro e he
        rcases List.mem_append.mp he with h | h
        · exact htr e h
        · exact killAllChildren_allKill _ _ _ e h
    | some t2 =>
      refine ⟨tr ++ (killAllChildren env.subPid env.kill2 env.now).2,
        [Event.checkChildExit], ?_, ?_, ?_⟩
      · simp [afterParent, hp, hk, afterChecks_snd]
      · intro e he
        rcases List.mem_append.mp he with h | h
        · exact htr e h
        · exact killAllChildren_allKill _ _ _ e h
      · intro e he; simpa using he

theorem tick_trace_split (st : LoopState) (env : TickEnv) :
    ∃ ks tl, (tick st env).2 = ks ++ tl
      ∧ (∀ e ∈ ks, isKill e = true) ∧ ∀ e ∈ tl, e = Event.checkChildExit := by
  cases st with
  | terminating t =>
    cases hf : timeoutFired t env.now with
    | true => exact ⟨[], [], by simp [tick, hf], by simp, by simp⟩
    | false =>
      refine ⟨[], [Event.checkChildExit], ?_, by simp, ?_⟩
      · simp [tick, hf, afterChecks_snd]
      · intro e he; simpa using he
  | running =>
    cases hs : env.signal with
    | false =>
      have h := afterParent_split LoopState.running env [] (by simp)
      simpa [tick, hs] using h
    | true =>
      cases hk : (killAllChildren env.subPid env.kill1 env.now).1 with
      | none =>
        refine ⟨(killAllChildren env.subPid env.kill1 env.now).2, [],
          ?_, ?_, by simp⟩
        · simp [tick, hs, hk]
        · exact killAllChildren_allKill _ _ _
      | some t1 =>
        have h := afterParent_split (LoopState.terminating t1) env
          (killAllChildren env.subPid env.kill1 env.now).2
          (killAllChildren_allKill _ _ _)
        simpa [tick, hs, hk] using h

theorem tick_exitCode_of_poll (st : LoopState) (env : TickEnv) (c : Option Nat)
    (hc : env.childStatus = some c)
    (ht : ∀ u, st = LoopState.terminating u → timeoutFired u env.now = false)
    (h1 : env.kill1.rootKillOk = true) (h2 : env.kill2.rootKillOk = true) :
    (tick st env).1 = TickOutcome.exitCode (c.getD 1) := by
  have hP : ∀ s tr, (afterParent s env tr).1 = TickOutcome.exitCode (c.getD 1) := by
    intro s tr
    cases hp : env.parentAlive with
    | true => simp [afterParent, hp, afterChecks, hc]
    | false => simp [afterParent, hp, killAllChildren_fst, h2, afterChecks, hc]
  cases st with
  | terminating t =>
    have hf := ht t rfl
    simp [tick, hf, afterChecks, hc]
  | running =>
    cases hs : env.signal with
    | true => simp [tick, hs, killAllChildren_fst, h1, hP]
    | false => simp [tick, hs, hP]

theorem tick_fatal_signal (env : TickEnv) (hs : env.signal = true)
    (hf : env.kill1.rootKillOk = false) :
    (tick LoopState.running env).1 = TickOutcome.fatalKillError := by
  simp [tick, hs, killAllChildren_fst, hf]

theorem killAllChildren_mem_desc (subPid : Nat) (k : KillEnv) (now : Nat)
    (h : k.rootKillOk = true) :
    ∀ p ∈ resolve subPid k.snap,
      Event.killDescendant p (k.descKillOk p) ∈ (killAllChildren subPid k now).2 := by
  intro p hp
  rw [killAllChildren_snd_ok subPid k now h]
  exact List.mem_cons_of_mem _ (List.mem_map.mpr ⟨p, hp, rfl⟩)

end KillOrphan

namespace KillOrphan

/-- Claim C1 (confirmed): for every process snapshot and root PID, the
Descendant Resolver's fixed-point expansion returns exactly the set of PIDs
transitively parented, directly or indirectly, by the root PID in that
snapshot, and membership in the result is unchanged when the snapshot
entries are scanned in any other order (any permutation of the snapshot). -/
theorem claim_C1 (root : Nat) (snap snap2 : Snapshot) (hperm : snap.Perm snap2)
    (pid : Nat) :
    (pid ∈ resolve root snap ↔ Desc snap root pid)
    ∧ (pid ∈ resolve root snap ↔ pid ∈ resolve root snap2) := by
  constructor
  · exact resolve_mem_iff root snap pid
  · rw [resolve_mem_iff, resolve_mem_iff]
    constructor
    · exact Desc_mono snap snap2 root (fun e he => hperm.mem_iff.mp he) pid
    · exact Desc_mono snap2 snap root (fun e he => hperm.mem_iff.mpr he) pid

/-- Witness for C1 at a concrete two-generation snapshot and its reversal. -/
theorem claim_C1_witness :
    (([(2, some 1), (3, some 2)] : Snapshot).Perm [(3, some 2), (2, some 1)])
    ∧ ((3 ∈ resolve 1 [(2, some 1), (3, some 2)]
          ↔ Desc [(2, some 1), (3, some 2)] 1 3)
      ∧ (3 ∈ resolve 1 [(2, some 1), (3, some 2)]
          ↔ 3 ∈ resolve 1 [(3, some 2), (2, some 1)])) :=
  ⟨List.Perm.swap _ _ _,
    claim_C1 1 [(2, some 1), (3, some 2)] [(3, some 2), (2, some 1)]
      (List.Perm.swap _ _ _) 3⟩

/-- Counterexample to C2 as stated: on a single running-state tick on which
the signal latch is tripped and the parent liveness check also reports the
parent gone (`envBoth`), the loop issues two kill cascades — two root-handle
kill requests — because both `if`s sit in the same `None` match arm, so the
kill action does not happen exactly once at the Running-to-Terminating
edge. -/
theorem claim_C2_counterexample :
    (tick LoopState.running envBoth).2.countP isKillRoot = 2
    ∧ envBoth.signal = true ∧ envBoth.parentAlive = false := by
  refine ⟨?_, rfl, rfl⟩
  rfl

/-- Claim C2 (amended): once the loop is in the Terminating state it never
issues another kill cascade on any later tick and never returns to Running
(the recorded kill instant is preserved); kill cascades are issued only on
the tick that leaves Running, but on that single tick one cascade is issued
per observed trigger — one when exactly one of the signal latch and the
parent-death check fires, two when both fire on the same tick. -/
theorem claim_C2_amended (t : Nat) (env envR : TickEnv)
    (h1 : envR.kill1.rootKillOk = true) (h2 : envR.kill2.rootKillOk = true) :
    ((tick (LoopState.terminating t) env).2.countP isKillRoot = 0)
    ∧ (∀ s, (tick (LoopState.terminating t) env).1 = TickOutcome.next s →
        s = LoopState.terminating t)
    ∧ ((tick LoopState.running envR).2.countP isKillRoot
        = (if envR.signal then 1 else 0) + (if envR.parentAlive then 0 else 1)) :=
  ⟨tick_terminating_noKill t env, tick_terminating_next t env,
    tick_running_countRoot envR h1 h2⟩

/-- Witness for the amended C2 at a concrete terminating tick and a concrete
signal-only running tick. -/
theorem claim_C2_witness :
    (envSig.kill1.rootKillOk = true) ∧ (envSig.kill2.rootKillOk = true)
    ∧ (((tick (LoopState.terminating 0) envLate).2.countP isKillRoot = 0)
      ∧ (∀ s, (tick (LoopState.terminating 0) envLate).1 = TickOutcome.next s →
          s = LoopState.terminating 0)
      ∧ ((tick LoopState.running envSig).2.countP isKillRoot
          = (if envSig.signal then 1 else 0)
            + (if envSig.parentAlive then 0 else 1))) :=
  ⟨rfl, rfl, claim_C2_amended 0 envLate envSig rfl rfl⟩

/-- Counterexample to C3 as stated: with the kill cascade started at instant
0 and the child still unreported, the tick observed at 5100 ms — more than
5 seconds, and exactly 5 seconds plus one 100 ms polling interval, after the
cascade began — does not exit: `elapsed.as_secs() > 5` is still false
(5100 / 1000 = 5), so the supervisor keeps looping, contradicting both the
claimed guard `now - t > 5 seconds` and the claimed upper bound of 5 seconds
plus one polling interval. -/
theorem claim_C3_counterexample :
    (tick (LoopState.terminating 0) envLate).1
        = TickOutcome.next (LoopState.terminating 0)
    ∧ envLate.now = 5000 + 100 ∧ envLate.childStatus = none := ⟨rfl, rfl, rfl⟩

/-- Claim C3 (amended): if the child never reports an exit status after the
cascade begins, the supervisor exits with its fixed non-zero timeout code 1;
the transition fires when the whole-second value of `now - t` exceeds 5,
that is when at least 6000 ms have elapsed, so with the 100 ms polling
interval the exit happens no earlier than 6 seconds and no later than
6 seconds plus one polling interval after the cascade began. -/
theorem claim_C3_amended (t : Nat) (env : TickEnv) (now2 : Nat)
    (ha : timeoutFired t now2 = true) (hb : timeoutFired t (now2 - 100) = false)
    (hc : t + 100 ≤ now2) :
    ((tick (LoopState.terminating t) env).1 = TickOutcome.exitTimeout
        ↔ 6000 ≤ env.now - t)
    ∧ (6000 ≤ now2 - t ∧ now2 - t < 6100)
    ∧ (outcomeExitCode TickOutcome.exitTimeout = some 1 ∧ (1 : Nat) ≠ 0) := by
  refine ⟨tick_exitTimeout_iff t env, ?_, by simp [outcomeExitCode]⟩
  have ha2 : 5 < (now2 - t) / 1000 := by simpa [timeoutFired] using ha
  have hb2 : ¬ 5 < (now2 - 100 - t) / 1000 := by simpa [timeoutFired] using hb
  omega

/-- Witness for the amended C3: the first 100 ms-spaced tick on which the
guard fires after a cascade started at instant 0 is at 6000 ms. -/
theorem claim_C3_witness :
    (timeoutFired 0 6000 = true) ∧ (timeoutFired 0 (6000 - 100) = false)
    ∧ (0 + 100 ≤ 6000)
    ∧ (((tick (LoopState.terminating 0) envSix).1 = TickOutcome.exitTimeout
        ↔ 6000 ≤ envSix.now - 0)
      ∧ (6000 ≤ 6000 - 0 ∧ 6000 - 0 < 6100)
      ∧ (outcomeExitCode TickOutcome.exitTimeout = some 1 ∧ (1 : Nat) ≠ 0)) :=
  ⟨by decide, by decide, by decide,
    claim_C3_amended 0 envSix 6000 (by decide) (by decide) (by decide)⟩

/-- Counterexample to C4 as stated: on a running-state tick on which the
signal latch is tripped and the parent check fires simultaneously
(`envTreeBoth`), the Descendant Resolver and Termination Canceller are
invoked twice, not once. -/
theorem claim_C4_counterexample :
    (tick LoopState.running envTreeBoth).2.countP isKillRoot = 2
    ∧ envTreeBoth.signal = true ∧ envTreeBoth.parentAlive = false := by
  refine ⟨?_, rfl, rfl⟩
  rfl

/-- Claim C4 (amended): while in Running, a tick runs the kill machinery
exactly when the signal latch reports tripped or the parent liveness check
shows the parent gone, invoking Descendant Resolver and Termination
Canceller immediately on that same tick — once per observed trigger, hence
twice rather than once when both triggers are observed together; when the
child has not exited, the tick ends in the Terminating state exactly under
that same condition. -/
theorem claim_C4_amended (env : TickEnv)
    (h1 : env.kill1.rootKillOk = true) (h2 : env.kill2.rootKillOk = true) :
    ((0 < (tick LoopState.running env).2.countP isKillRoot)
        ↔ (env.signal = true ∨ env.parentAlive = false))
    ∧ ((tick LoopState.running env).2.countP isKillRoot
        = (if env.signal then 1 else 0) + (if env.parentAlive then 0 else 1))
    ∧ (env.childStatus = none →
        ((∃ u, (tick LoopState.running env).1
            = TickOutcome.next (LoopState.terminating u))
          ↔ (env.signal = true ∨ env.parentAlive = false))) := by
  have hcount := tick_running_countRoot env h1 h2
  refine ⟨?_, hcount, ?_⟩
  · rw [hcount]
    cases hs : env.signal <;> cases hp : env.parentAlive <;> simp
  · intro hcs
    cases hs : env.signal with
    | true =>
      cases hp : env.parentAlive with
      | true =>
        simp [tick, hs, hp, killAllChildren_fst, h1, afterParent, afterChecks, hcs]
      | false =>
        simp [tick, hs, hp, killAllChildren_fst, h1, h2, afterParent,
          afterChecks, hcs]
    | false =>
      cases hp : env.parentAlive with
      | true => simp [tick, hs, hp, afterParent, afterChecks, hcs]
      | false =>
        simp [tick, hs, hp, killAllChildren_fst, h2, afterParent,
          afterChecks, hcs]

/-- Witness for the amended C4 at a concrete tick with both triggers. -/
theorem claim_C4_witness :
    (envTreeBoth.kill1.rootKillOk = true) ∧ (envTreeBoth.kill2.rootKillOk = true)
    ∧ (((0 < (tick LoopState.running envTreeBoth).2.countP isKillRoot)
        ↔ (envTreeBoth.signal = true ∨ envTreeBoth.parentAlive = false))
      ∧ ((tick LoopState.running envTreeBoth).2.countP isKillRoot
          = (if envTreeBoth.signal then 1 else 0)
            + (if envTreeBoth.parentAlive then 0 else 1))
      ∧ (envTreeBoth.childStatus = none →
          ((∃ u, (tick LoopState.running envTreeBoth).1
              = TickOutcome.next (LoopState.terminating u))
            ↔ (envTreeBoth.signal = true ∨ envTreeBoth.parentAlive = false)))) :=
  ⟨rfl, rfl, claim_C4_amended envTreeBoth rfl rfl⟩

/-- Claim C5 (confirmed): within a single kill cascade the root-handle kill
request comes first and only afterwards the kill requests for every PID in
the resolved descendant set; and within any tick's event trace every kill
request precedes the child-exit-status poll. -/
theorem claim_C5 (subPid now : Nat) (k : KillEnv) (st : LoopState)
    (env : TickEnv) (hok : k.rootKillOk = true) :
    ((killAllChildren subPid k now).2
        = Event.killRoot subPid ::
            (resolve subPid k.snap).map
              (fun p => Event.killDescendant p (k.descKillOk p)))
    ∧ (∃ ks tl, (tick st env).2 = ks ++ tl
        ∧ (∀ e ∈ ks, isKill e = true) ∧ ∀ e ∈ tl, e = Event.checkChildExit) :=
  ⟨killAllChildren_snd_ok subPid k now hok, tick_trace_split st env⟩

/-- Witness for C5 at a concrete cascade and a concrete signal tick. -/
theorem claim_C5_witness :
    (kenvOk.rootKillOk = true)
    ∧ (((killAllChildren 10 kenvOk 0).2
        = Event.killRoot 10 ::
            (resolve 10 kenvOk.snap).map
              (fun p => Event.killDescendant p (kenvOk.descKillOk p)))
      ∧ (∃ ks tl, (tick LoopState.running envSig).2 = ks ++ tl
          ∧ (∀ e ∈ ks, isKill e = true)
          ∧ ∀ e ∈ tl, e = Event.checkChildExit)) :=
  ⟨rfl, claim_C5 10 0 kenvOk LoopState.running envSig rfl⟩

/-- Claim C6 (confirmed): per-descendant kill failures are swallowed — every
resolved descendant receives a kill attempt, and the discarded per-descendant
results never influence the overall result — while the cascade as a whole
fails exactly when the root-handle kill fails, in which case the supervision
loop ends with a fatal error. -/
theorem claim_C6 (subPid now : Nat) (k : KillEnv) (f : Nat → Bool)
    (env : TickEnv) (hsig : env.signal = true)
    (hfail : env.kill1.rootKillOk = false) :
    ((killAllChildren subPid k now).1 = none ↔ k.rootKillOk = false)
    ∧ ((killAllChildren subPid (KillEnv.mk k.snap k.rootKillOk f) now).1
        = (killAllChildren subPid k now).1)
    ∧ (k.rootKillOk = true → ∀ p ∈ resolve subPid k.snap,
        Event.killDescendant p (k.descKillOk p) ∈ (killAllChildren subPid k now).2)
    ∧ ((tick LoopState.running env).1 = TickOutcome.fatalKillError) := by
  refine ⟨?_, by simp [killAllChildren_fst], killAllChildren_mem_desc subPid k now,
    tick_fatal_signal env hsig hfail⟩
  rw [killAllChildren_fst]
  cases h : k.rootKillOk <;> simp

/-- Witness for C6 at a concrete cascade environment and a concrete tick on
which the root kill fails. -/
theorem claim_C6_witness :
    (envFatal.signal = true) ∧ (envFatal.kill1.rootKillOk = false)
    ∧ (((killAllChildren 10 kenvOk 0).1 = none ↔ kenvOk.rootKillOk = false)
      ∧ ((killAllChildren 10
            (KillEnv.mk kenvOk.snap kenvOk.rootKillOk (fun _ => false)) 0).1
          = (killAllChildren 10 kenvOk 0).1)
      ∧ (kenvOk.rootKillOk = true → ∀ p ∈ resolve 10 kenvOk.snap,
          Event.killDescendant p (kenvOk.descKillOk p)
            ∈ (killAllChildren 10 kenvOk 0).2)
      ∧ ((tick LoopState.running envFatal).1 = TickOutcome.fatalKillError)) :=
  ⟨rfl, rfl, claim_C6 10 0 kenvOk (fun _ => false) envFatal rfl rfl⟩

/-- Claim C7 (confirmed): whenever the non-blocking child-status poll
succeeds — in Running, or in Terminating with the grace period not yet
elapsed, and with no fatal root-kill failure cutting the tick short — the
supervisor exits with the child's own exit code, falling back to the fixed
failure code 1 when the child was killed by a signal and reports no code. -/
theorem claim_C7 (st : LoopState) (env : TickEnv) (c : Option Nat)
    (hc : env.childStatus = some c)
    (ht : ∀ u, st = LoopState.terminating u → timeoutFired u env.now = false)
    (h1 : env.kill1.rootKillOk = true) (h2 : env.kill2.rootKillOk = true) :
    ((tick st env).1 = TickOutcome.exitCode (c.getD 1))
    ∧ (c = none → (tick st env).1 = TickOutcome.exitCode 1)
    ∧ outcomeExitCode (TickOutcome.exitCode (c.getD 1)) = some (c.getD 1) := by
  have h := tick_exitCode_of_poll st env c hc ht h1 h2
  refine ⟨h, ?_, rfl⟩
  intro hcn
  rw [hcn] at h
  simpa using h

/-- Witness for C7 on a running tick whose poll reports exit code 7. -/
theorem claim_C7_witness :
    (envExit7.childStatus = some (some 7))
    ∧ (∀ u, LoopState.running = LoopState.terminating u →
        timeoutFired u envExit7.now = false)
    ∧ (envExit7.kill1.rootKillOk = true) ∧ (envExit7.kill2.rootKillOk = true)
    ∧ (((tick LoopState.running envExit7).1
          = TickOutcome.exitCode ((some 7).getD 1))
      ∧ ((some 7 : Option Nat) = none →
          (tick LoopState.running envExit7).1 = TickOutcome.exitCode 1)
      ∧ outcomeExitCode (TickOutcome.exitCode ((some 7).getD 1))
          = some ((some 7).getD 1)) :=
  ⟨rfl, (by intro u hu; cases hu), rfl, rfl,
    claim_C7 LoopState.running envExit7 (some 7) rfl
      (by intro u hu; cases hu) rfl rfl⟩

/-- Counterexample to C8 as stated: a startup in which everything succeeds
except the parent-PID lookup ends in the `.expect` panic, and the process
exits with the Rust panic exit code 101, not with exit code 1 as the claim
requires. -/
theorem claim_C8_counterexample :
    (startup envNoParent).1 = StartupResult.panicExit
    ∧ startupExitCode (startup envNoParent).1 = some 101
    ∧ ¬ startupExitCode (startup envNoParent).1 = some 1 := by
  refine ⟨rfl, rfl, by decide⟩

/-- Claim C8 (amended): every unrecoverable startup failure aborts the
process immediately with a non-zero exit code — exit code 1 when a
signal-handler registration or the spawn fails (the error propagates out of
`main`), and the Rust panic exit code 101 when the supervisor cannot read
its own process entry or its parent PID. -/
theorem claim_C8_amended (env : StartupEnv) (hargs : 2 ≤ env.argc) :
    ((env.registerTermOk = false ∨ env.registerIntOk = false
        ∨ env.registerQuitOk = false) →
      (startup env).1 = StartupResult.errExit
      ∧ startupExitCode (startup env).1 = some 1)
    ∧ (env.registerTermOk = true → env.registerIntOk = true →
        env.registerQuitOk = true → env.spawnOk = false →
        (startup env).1 = StartupResult.errExit
        ∧ startupExitCode (startup env).1 = some 1)
    ∧ (env.registerTermOk = true → env.registerIntOk = true →
        env.registerQuitOk = true → env.spawnOk = true →
        (env.selfFound = false ∨ env.parentFound = false) →
        (startup env).1 = StartupResult.panicExit
        ∧ startupExitCode (startup env).1 = some 101)
    ∧ (∀ code, startupExitCode (startup env).1 = some code → code ≠ 0) := by
  obtain ⟨argc, rT, rI, rQ, sp, sf, pf⟩ := env
  have h2 : ¬ argc < 2 := by
    simp only at hargs
    omega
  cases rT <;> cases rI <;> cases rQ <;> cases sp <;> cases sf <;> cases pf <;>
    simp [startup, startupExitCode, h2]

/-- Witness for the amended C8 at a startup whose spawn fails. -/
theorem claim_C8_witness :
    (2 ≤ envNoSpawn.argc)
    ∧ (((envNoSpawn.registerTermOk = false ∨ envNoSpawn.registerIntOk = false
          ∨ envNoSpawn.registerQuitOk = false) →
        (startup envNoSpawn).1 = StartupResult.errExit
        ∧ startupExitCode (startup envNoSpawn).1 = some 1)
      ∧ (envNoSpawn.registerTermOk = true → envNoSpawn.registerIntOk = true →
          envNoSpawn.registerQuitOk = true → envNoSpawn.spawnOk = false →
          (startup envNoSpawn).1 = StartupResult.errExit
          ∧ startupExitCode (startup envNoSpawn).1 = some 1)
      ∧ (envNoSpawn.registerTermOk = true → envNoSpawn.registerIntOk = true →
          envNoSpawn.registerQuitOk = true → envNoSpawn.spawnOk = true →
          (envNoSpawn.selfFound = false ∨ envNoSpawn.parentFound = false) →
          (startup envNoSpawn).1 = StartupResult.panicExit
          ∧ startupExitCode (startup envNoSpawn).1 = some 101)
      ∧ (∀ code, startupExitCode (startup envNoSpawn).1 = some code →
          code ≠ 0)) :=
  ⟨by decide, claim_C8_amended envNoSpawn (by decide)⟩

/-- Claim C9 (confirmed): invoking the supervisor with zero extra arguments
(argv holds only the program name) exits with code 1 after writing the usage
message to the error stream, without spawning any child. -/
theorem claim_C9 (env : StartupEnv) (h : env.argc = 1) :
    (startup env).1 = StartupResult.usageExit
    ∧ startupExitCode (startup env).1 = some 1
    ∧ StartupEvent.usageMessage ∈ (startup env).2
    ∧ StartupEvent.spawnChild ∉ (startup env).2 := by
  have h2 : env.argc < 2 := by omega
  simp [startup, h2, startupExitCode]

/-- Witness for C9 at a concrete zero-extra-argument startup. -/
theorem claim_C9_witness :
    (envUsage.argc = 1)
    ∧ ((startup envUsage).1 = StartupResult.usageExit
      ∧ startupExitCode (startup envUsage).1 = some 1
      ∧ StartupEvent.usageMessage ∈ (startup envUsage).2
      ∧ StartupEvent.spawnChild ∉ (startup envUsage).2) :=
  ⟨rfl, claim_C9 envUsage rfl⟩

/-- Claim C10 (confirmed): the fixed-point loop of the Descendant Resolver
terminates — a full pass either strictly grows the result set or leaves it
unchanged (which ends the loop), the result set only holds PIDs appearing in
the snapshot, the pass after the computed result adds nothing, and snapshot
length plus one passes always reach the fixed point so that any further
passes change nothing. -/
theorem claim_C10 (root : Nat) (snap : Snapshot) (ch : List Nat) :
    ((scanEntries root snap ch false).2 = true →
        ch.length < (scanEntries root snap ch false).1.length)
    ∧ ((scanEntries root snap ch false).2 = false →
        (scanEntries root snap ch false).1 = ch)
    ∧ (∀ p ∈ resolve root snap, p ∈ snap.map Prod.fst)
    ∧ ((scanEntries root snap (resolve root snap) false).2 = false)
    ∧ (∀ k, runPasses root snap (snap.length + 1 + k) [] = resolve root snap) :=
  ⟨scanEntries_strict root snap ch, scanEntries_false_eq root snap ch,
    resolve_subset root snap, (resolve_fix root snap).1,
    (resolve_fix root snap).2⟩

/-- Witness for C10 at a concrete one-entry snapshot. -/
theorem claim_C10_witness :
    ((scanEntries 1 [(2, some 1)] [] false).2 = true →
        ([] : List Nat).length < (scanEntries 1 [(2, some 1)] [] false).1.length)
    ∧ ((scanEntries 1 [(2, some 1)] [] false).2 = false →
        (scanEntries 1 [(2, some 1)] [] false).1 = [])
    ∧ (∀ p ∈ resolve 1 [(2, some 1)], p ∈ ([(2, some 1)] : Snapshot).map Prod.fst)
    ∧ ((scanEntries 1 [(2, some 1)] (resolve 1 [(2, some 1)]) false).2 = false)
    ∧ (∀ k, runPasses 1 [(2, some 1)] (([(2, some 1)] : Snapshot).length + 1 + k) []
        = resolve 1 [(2, some 1)]) :=
  claim_C10 1 [(2, some 1)] []

end KillOrphan
